import Mathlib

/-!
Shallow embedding of `src/app.py` (currency-exchange CLI client) and proofs of
the spec claims about it.

Modelling conventions:
- Python exceptions are modelled by `Except String α`, the `String` being the
  `str()` of the raised exception.
- A parsed JSON value is `JVal`; `json.loads` is a parameter
  `jsonLoads : String → Except String JVal` (a library function: only its type
  matters to the embedded handlers).
- The network is a function `net : String → GetOutcome` from the requested
  endpoint to what `requests.get` does there.
- Console output of a handler is its list of printed lines (one `print` call
  per element); `sys.exit` is recorded in `Effects.exitCode`.
- Python string quotes inside messages are written with the escape \x27.
-/

namespace App

/-- A Python value as parsed by `json.loads`: booleans, strings, numbers
(kept by their printed representation, since the program never computes with
them), `null`, and objects as association lists (Python dicts preserve
insertion order; keys of a real dict are distinct). Arrays are omitted: no
claim concerns them and the handlers index responses only as dicts. -/
inductive JVal where
  | bool (b : Bool)
  | str (s : String)
  | num (r : String)
  | null
  | obj (fields : List (String × JVal))

/-- Python truthiness of a `JVal` (`if parsed_data.get("success", False):`).
Empty string / zero / `None` / empty dict are falsy. -/
def pyTruthy : JVal → Bool
  | .bool b => b
  | .str s => s ≠ ""
  | .num r => r ≠ "0" && r ≠ "0.0" && r ≠ "-0.0"
  | .null => false
  | .obj fs => !fs.isEmpty

mutual
/-- Python `repr()` of a `JVal` (string escaping inside keys elided: the
program only ever prints scalar fields). -/
def pyRepr : JVal → String
  | .bool true => "True"
  | .bool false => "False"
  | .str s => "\x27" ++ s ++ "\x27"
  | .num r => r
  | .null => "None"
  | .obj fs => "\x7b" ++ pyReprFields fs ++ "\x7d"

/-- Comma-separated `repr` of dict entries. -/
def pyReprFields : List (String × JVal) → String
  | [] => ""
  | [kv] => "\x27" ++ kv.1 ++ "\x27: " ++ pyRepr kv.2
  | kv :: rest => "\x27" ++ kv.1 ++ "\x27: " ++ pyRepr kv.2 ++ ", " ++ pyReprFields rest
end

/-- Python `str()` of a `JVal`, as used by f-string interpolation. -/
def pyStr : JVal → String
  | .bool true => "True"
  | .bool false => "False"
  | .str s => s
  | .num r => r
  | .null => "None"
  | .obj fs => "\x7b" ++ pyReprFields fs ++ "\x7d"

/-- `parsed_data[key]` — dict subscription: the value when present, otherwise
`KeyError(key)` whose `str()` is the quoted key; subscribing a non-dict with a
string raises a `TypeError` (message abridged: no claim inspects it). -/
def dictIndex (v : JVal) (key : String) : Except String JVal :=
  match v with
  | .obj fields =>
    match fields.lookup key with
    | some x => .ok x
    | none => .error ("\x27" ++ key ++ "\x27")
  | _ => .error "TypeError: value is not subscriptable by a string"

/-- `parsed_data.get(key, default)` — the value when present, the default
otherwise; calling `.get` on a non-dict raises an `AttributeError` (message
abridged). -/
def dictGet (v : JVal) (key : String) (default : JVal) : Except String JVal :=
  match v with
  | .obj fields =>
    match fields.lookup key with
    | some x => .ok x
    | none => .ok default
  | _ => .error "AttributeError: value has no attribute get"

/-- `symbols.items()` / `rates.items()` — the dict entries in insertion
order; a non-dict raises an `AttributeError` (message abridged). -/
def itemsOf : JVal → Except String (List (String × JVal))
  | .obj fields => .ok fields
  | _ => .error "AttributeError: value has no attribute items"

/-- What `requests.get` does at an endpoint: either it raises a
`RequestException` (network failure, timeout, ...), or it yields a response
with a status code, a reason phrase and a body text. -/
inductive GetOutcome where
  | transportError (msg : String)
  | response (status : Nat) (reason : String) (text : String)
deriving Repr, DecidableEq

/-- `Response.raise_for_status` (from the `requests` library): it raises
`HTTPError` exactly when the status code is 4xx or 5xx, with the messages
from its source; on any other status it returns without raising. -/
def http_error_msg (status : Nat) (reason url : String) : Option String :=
  if 400 ≤ status ∧ status < 500 then
    some (toString status ++ " Client Error: " ++ reason ++ " for url: " ++ url)
  else if 500 ≤ status ∧ status < 600 then
    some (toString status ++ " Server Error: " ++ reason ++ " for url: " ++ url)
  else
    none

/-- `make_get_request` (src/app.py lines 13-38): perform the GET; if
`requests.get` or `raise_for_status` raises a `RequestException`, re-raise
`Exception(f'Request failed with error: \x7berror\x7d')`; otherwise return
`response.text`. -/
def make_get_request (endpoint : String) (outcome : GetOutcome) :
    Except String String :=
  match outcome with
  | .transportError msg => .error ("Request failed with error: " ++ msg)
  | .response status reason text =>
    match http_error_msg status reason endpoint with
    | some m => .error ("Request failed with error: " ++ m)
    | none => .ok text

/-- Observable effects of running one handler: the endpoints it requested (in
order), the lines it printed, and `some code` when it called
`sys.exit(code)` (`none` = returned normally). -/
structure Effects where
  requests : List String
  prints : List String
  exitCode : Option Nat
deriving Repr, DecidableEq

/-- The fixed symbols endpoint built in `get_currencies`. -/
def symbols_endpoint : String := "https://api.apilayer.com/fixer/symbols"

/-- The try-block of `get_currencies` (lines 48-62): GET, `json.loads`,
branch on `parsed_data["success"]`, print one line per symbols entry, or the
fixed error line. `.error` is the exception escaping the block. -/
def get_currencies_body (jsonLoads : String → Except String JVal)
    (net : String → GetOutcome) : Except String (List String) := do
  let response_content ← make_get_request symbols_endpoint (net symbols_endpoint)
  let parsed_data ← jsonLoads response_content
  let success ← dictIndex parsed_data "success"
  if pyTruthy success then do
    let symbols ← dictIndex parsed_data "symbols"
    let items ← itemsOf symbols
    pure (items.map (fun kv => kv.1 ++ ": " ++ pyStr kv.2))
  else
    pure ["Error while accessing symbols"]

/-- `get_currencies` (lines 40-65): run the try-block; any exception is
caught and printed as a request failure; the handler always returns normally. -/
def get_currencies (jsonLoads : String → Except String JVal)
    (net : String → GetOutcome) : Effects :=
  match get_currencies_body jsonLoads net with
  | .ok lines => ⟨[symbols_endpoint], lines, none⟩
  | .error e => ⟨[symbols_endpoint], ["Request failed with error: " ++ e], none⟩

/-- The convert endpoint (lines 80-81). -/
def convert_endpoint (from_currency to_currency amount : String) : String :=
  "https://api.apilayer.com/fixer/convert?to=" ++ to_currency ++
    "&from=" ++ from_currency ++ "&amount=" ++ amount

/-- The try-block of `convert_currency` (lines 82-95): GET, `json.loads`,
branch on `parsed_data.get("success", False)`; on truthy success print the
conversion line, else print the server message or the fallback. -/
def convert_currency_body (jsonLoads : String → Except String JVal)
    (net : String → GetOutcome)
    (from_currency to_currency amount : String) :
    Except String (List String) := do
  let endpoint := convert_endpoint from_currency to_currency amount
  let response_content ← make_get_request endpoint (net endpoint)
  let parsed_data ← jsonLoads response_content
  let success ← dictGet parsed_data "success" (.bool false)
  if pyTruthy success then do
    let result ← dictIndex parsed_data "result"
    let query ← dictIndex parsed_data "query"
    let qamount ← dictIndex query "amount"
    let qfrom ← dictIndex query "from"
    let qto ← dictIndex query "to"
    pure ["\n" ++ pyStr qamount ++ " " ++ pyStr qfrom ++ " ----> " ++
      pyStr result ++ " " ++ pyStr qto]
  else do
    let error_message ← dictGet parsed_data "message" (.str "An unknown error occurred")
    pure ["Error while accessing symbols: " ++ pyStr error_message]

/-- `convert_currency` (lines 68-98): run the try-block; any exception is
caught and printed; the handler always returns normally. -/
def convert_currency (jsonLoads : String → Except String JVal)
    (net : String → GetOutcome)
    (from_currency to_currency amount : String) : Effects :=
  match convert_currency_body jsonLoads net from_currency to_currency amount with
  | .ok lines => ⟨[convert_endpoint from_currency to_currency amount], lines, none⟩
  | .error e => ⟨[convert_endpoint from_currency to_currency amount],
      ["Request failed with error: " ++ e], none⟩

/-- The latest-rates endpoint as built in `get_exchange_rate` (lines
113-125): `params` starts as `["?"]`, `symbols=`/`base=` are appended when
truthy (for the strings the dispatcher passes: non-empty), and the
always-non-empty list is joined with `"&"` onto the base URL. -/
def latest_endpoint (base symbols : String) : String :=
  let params := ["?"]
  let params := if symbols ≠ "" then params ++ ["symbols=" ++ symbols] else params
  let params := if base ≠ "" then params ++ ["base=" ++ base] else params
  "https://api.apilayer.com/fixer/latest" ++
    (if params ≠ [] then String.intercalate "&" params else "")

/-- The try-block of `get_exchange_rate` (lines 127-147): GET, `json.loads`,
branch on `parsed_data.get("success", False)`; on truthy success print the
base/date header, the `Rates: ` line and one line per rate, else print the
fixed error line. -/
def get_exchange_rate_body (jsonLoads : String → Except String JVal)
    (net : String → GetOutcome) (base symbols : String) :
    Except String (List String) := do
  let endpoint := latest_endpoint base symbols
  let response_content ← make_get_request endpoint (net endpoint)
  let parsed_data ← jsonLoads response_content
  let success ← dictGet parsed_data "success" (.bool false)
  if pyTruthy success then do
    let base2 ← dictIndex parsed_data "base"
    let date ← dictIndex parsed_data "date"
    let rates ← dictIndex parsed_data "rates"
    let items ← itemsOf rates
    pure (["\nBase: " ++ pyStr base2 ++ "\tDate: " ++ pyStr date, "Rates: "] ++
      items.map (fun kv => kv.1 ++ ": " ++ pyStr kv.2))
  else
    pure ["Error while accessing data"]

/-- `get_exchange_rate` (lines 101-150): run the try-block; any exception is
caught and printed; the handler always returns normally. -/
def get_exchange_rate (jsonLoads : String → Except String JVal)
    (net : String → GetOutcome) (base symbols : String) : Effects :=
  match get_exchange_rate_body jsonLoads net base symbols with
  | .ok lines => ⟨[latest_endpoint base symbols], lines, none⟩
  | .error e => ⟨[latest_endpoint base symbols],
      ["Request failed with error: " ++ e], none⟩

/-- `quit_program` (lines 153-159): print the farewell and `sys.exit(0)`,
making no request. -/
def quit_program : Effects := ⟨[], ["See ya!!"], some 0⟩

/-- A Python value flowing into `handle_choices`: `main` passes an `int`,
the docstring says a `str`. -/
inductive PyVal where
  | int (n : Int)
  | str (s : String)

/-- Digit run of a Python integer literal after the first digit: digits, with
single underscores allowed only between digits. -/
def pyDigitsAux : Nat → List Char → Option Nat
  | acc, [] => some acc
  | acc, c :: cs =>
    if c.isDigit then pyDigitsAux (10 * acc + (c.toNat - 48)) cs
    else if c = '_' then
      match cs with
      | [] => none
      | d :: cs2 =>
        if d.isDigit then pyDigitsAux (10 * acc + (d.toNat - 48)) cs2 else none
    else none

/-- Digit run of a Python integer literal: must start with a digit. -/
def pyDigits : List Char → Option Nat
  | [] => none
  | c :: cs => if c.isDigit then pyDigitsAux (c.toNat - 48) cs else none

/-- The ASCII whitespace characters `int()` strips (unicode spaces elided). -/
def isPySpace (c : Char) : Bool :=
  c = ' ' || c = '\t' || c = '\n' || c = '\r' || c = '\x0b' || c = '\x0c'

/-- Strip leading and trailing whitespace. -/
def stripWs (l : List Char) : List Char :=
  ((l.dropWhile isPySpace).reverse.dropWhile isPySpace).reverse

/-- Python `int(s)` for a string: strip surrounding whitespace, optional
sign, then a digit run; `none` models the `ValueError`. -/
def pyIntParse (s : String) : Option Int :=
  match stripWs s.toList with
  | '+' :: rest => (pyDigits rest).map (fun n => (n : Int))
  | '-' :: rest => (pyDigits rest).map (fun n => -(n : Int))
  | l => (pyDigits l).map (fun n => (n : Int))

/-- Python `int(x)` (line 179 / line 214): the identity on an `int`, the
parse above on a `str`; the error carries the `ValueError` message. -/
def pyInt : PyVal → Except String Int
  | .int n => .ok n
  | .str s =>
    match pyIntParse s with
    | some n => .ok n
    | none => .error ("invalid literal for int() with base 10: \x27" ++ s ++ "\x27")

/-- The handler functions that populate `choice_handlers`. -/
inductive Handler where
  | get_currencies
  | convert_currency
  | get_exchange_rate
  | quit_program
deriving Repr, DecidableEq

/-- `choice_handlers` (lines 163-168) combined with the
`choice_handlers.get(int_value, None)` lookup of line 185. -/
def choice_handlers (n : Int) : Option Handler :=
  if n = 1 then some .get_currencies
  else if n = 2 then some .convert_currency
  else if n = 3 then some .get_exchange_rate
  else if n = 4 then some .quit_program
  else none

/-- A handler invocation as issued by the dispatcher, with the arguments it
was given. -/
inductive Call where
  | getCurrencies
  | convertCurrency (from_currency to_currency amount : String)
  | getExchangeRate (base symbols : String)
  | quitProgram
deriving Repr, DecidableEq

/-- What one run of `handle_choices` does before any handler body executes:
the `input()` prompts it issued, the lines it printed itself, and the handler
invocation it dispatched to (if any). -/
structure DispatchResult where
  prompts : List String
  prints : List String
  call : Option Call
deriving Repr, DecidableEq

/-- The `else` block of `handle_choices` (lines 183-205), reached when
`int(choice)` succeeded with value `n`: look the handler up, prompt for the
extra arguments of choices 2 and 3, call the others bare, and print the
invalid-choice message when the lookup found nothing. `console k` is the
user's reply to the k-th `input()` of this block. -/
def handle_choices_else (n : Int) (console : Nat → String) : DispatchResult :=
  match choice_handlers n with
  | some handler =>
    if n = 2 then
      { prompts := ["Enter the from currency: ", "Enter the to currency: ",
          "Enter the amount: "],
        prints := [],
        call := some (.convertCurrency (console 0) (console 1) (console 2)) }
    else if n = 3 then
      { prompts :=
          ["Enter the three-letter currency code of your preferred base currency: ",
           "Enter a list of comma-separated currency codes to limit output currencies: "],
        prints := [],
        call := some (.getExchangeRate (console 0) (console 1)) }
    else
      -- handler() with no arguments; the two middle cases are unreachable
      -- (the lookup yields them only for n = 2 / n = 3, handled above)
      { prompts := [],
        prints := [],
        call := some (match handler with
          | .get_currencies => .getCurrencies
          | .convert_currency => .convertCurrency (console 0) (console 1) (console 2)
          | .get_exchange_rate => .getExchangeRate (console 0) (console 1)
          | .quit_program => .quitProgram) }
  | none =>
    { prompts := [], prints := ["Invalid input. Please enter a valid choice."],
      call := none }

/-- `handle_choices` (lines 170-205): try `int(choice)`; on `ValueError`
print the invalid-input message, otherwise run the `else` block. -/
def handle_choices (choice : PyVal) (console : Nat → String) : DispatchResult :=
  match pyInt choice with
  | .error _ =>
    { prompts := [], prints := ["Invalid input. Please enter a valid choice."],
      call := none }
  | .ok n => handle_choices_else n console

/-- Run a dispatched handler invocation. -/
def run_call (jsonLoads : String → Except String JVal)
    (net : String → GetOutcome) : Call → Effects
  | .getCurrencies => get_currencies jsonLoads net
  | .convertCurrency f t a => convert_currency jsonLoads net f t a
  | .getExchangeRate b s => get_exchange_rate jsonLoads net b s
  | .quitProgram => quit_program

/-- `handle_choices` followed by the dispatched handler's body: the combined
observable effects of handling one (already-read) choice. -/
def handle_choices_run (jsonLoads : String → Except String JVal)
    (net : String → GetOutcome) (console : Nat → String)
    (choice : PyVal) : Effects :=
  let d := handle_choices choice console
  match d.call with
  | some c =>
    let e := run_call jsonLoads net c
    ⟨e.requests, d.prints ++ e.prints, e.exitCode⟩
  | none => ⟨[], d.prints, none⟩

/-- One iteration of the `while True` loop of `main` (lines 212-224):
`choice = int(input(...))` — the `int()` is applied in `main` itself, outside
any try/except, so a `ValueError` from an unparseable menu input propagates
(`.error`) and the process crashes; otherwise the parsed int is passed to
`handle_choices`. `console 0` is the menu reply, `console (k+1)` the later
replies. -/
def main_loop_step (jsonLoads : String → Except String JVal)
    (net : String → GetOutcome) (console : Nat → String) :
    Except String Effects :=
  match pyInt (.str (console 0)) with
  | .error e => .error e
  | .ok n => .ok (handle_choices_run jsonLoads net (fun k => console (k + 1)) (.int n))

/-! ## Theorems for the claims -/

/-- C1: the claim says an unparseable menu input is caught, reported and
re-prompted. It is not: `main` applies `int()` to the raw input itself,
outside any try/except, so on the input "abc" the loop iteration raises an
uncaught `ValueError` and the process crashes — while `handle_choices`,
had it received the raw string as its docstring intends, would have printed
the invalid-input message and returned normally. -/
theorem C1_main_crashes_on_unparseable_input :
    main_loop_step (fun _ => .ok .null) (fun _ => .transportError "unused")
        (fun _ => "abc") =
      .error "invalid literal for int() with base 10: \x27abc\x27" ∧
    handle_choices (.str "abc") (fun _ => "") =
      { prompts := [], prints := ["Invalid input. Please enter a valid choice."],
        call := none } := by
  constructor <;> rfl

/-- C2 (counterexample): the claim says every non-2xx response makes the
helper raise. False: `raise_for_status` only raises for 4xx/5xx, so a 304
response returns its body as text instead of raising. -/
theorem C2_counterexample :
    ¬ (∀ endpoint status reason text, ¬ (200 ≤ status ∧ status < 300) →
        ∃ e, make_get_request endpoint (.response status reason text) =
          .error e) := by
  intro h
  obtain ⟨e, he⟩ := h "u" 304 "Not Modified" "cached-body" (by omega)
  simp [make_get_request, http_error_msg] at he

/-- C2 (amended): if the GET raises a transport error, or the response
status is 4xx or 5xx, `make_get_request` raises a generic exception whose
message carries the underlying cause; on any other status it returns the raw
response body as text. -/
theorem C2_make_get_request (endpoint : String) (o : GetOutcome) :
    (∀ msg, o = .transportError msg →
      make_get_request endpoint o =
        .error ("Request failed with error: " ++ msg)) ∧
    (∀ status reason text, o = .response status reason text →
      (400 ≤ status ∧ status < 600 →
        ∃ cause, http_error_msg status reason endpoint = some cause ∧
          make_get_request endpoint o =
            .error ("Request failed with error: " ++ cause)) ∧
      (¬ (400 ≤ status ∧ status < 600) →
        make_get_request endpoint o = .ok text)) := by
  refine ⟨fun msg h => by subst h; rfl, fun status reason text h => ?_⟩
  subst h
  constructor
  · intro hs
    by_cases h5 : status < 500
    · have hc : 400 ≤ status ∧ status < 500 := ⟨hs.1, h5⟩
      refine ⟨toString status ++ " Client Error: " ++ reason ++ " for url: " ++ endpoint, ?_, ?_⟩
      · simp [http_error_msg, hc]
      · simp [make_get_request, http_error_msg, hc]
    · have hc1 : ¬ (400 ≤ status ∧ status < 500) := by omega
      have hc2 : 500 ≤ status ∧ status < 600 := by omega
      refine ⟨toString status ++ " Server Error: " ++ reason ++ " for url: " ++ endpoint, ?_, ?_⟩
      · simp [http_error_msg, hc1, hc2]
      · simp [make_get_request, http_error_msg, hc1, hc2]
  · intro hs
    have hc1 : ¬ (400 ≤ status ∧ status < 500) := by omega
    have hc2 : ¬ (500 ≤ status ∧ status < 600) := by omega
    simp [make_get_request, http_error_msg, hc1, hc2]

/-- Witness for C2's amended theorem at a 404 response. -/
theorem C2_make_get_request_witness :
    ∃ cause, http_error_msg 404 "Not Found" "u" = some cause ∧
      make_get_request "u" (.response 404 "Not Found" "body") =
        .error ("Request failed with error: " ++ cause) :=
  ((C2_make_get_request "u" (.response 404 "Not Found" "body")).2
    404 "Not Found" "body" rfl).1 (by omega)

/-- C3: each of the three action handlers always returns normally (it never
calls `sys.exit`), and whenever the GET helper raises (returns `.error e`),
the handler catches the exception and prints it as a request-failure line. -/
theorem C3_handlers_catch_get_errors
    (jsonLoads : String → Except String JVal) (net : String → GetOutcome)
    (from_currency to_currency amount base symbols : String) :
    ((get_currencies jsonLoads net).exitCode = none ∧
     (convert_currency jsonLoads net from_currency to_currency amount).exitCode = none ∧
     (get_exchange_rate jsonLoads net base symbols).exitCode = none) ∧
    (∀ e, make_get_request symbols_endpoint (net symbols_endpoint) = .error e →
      (get_currencies jsonLoads net).prints =
        ["Request failed with error: " ++ e]) ∧
    (∀ e, make_get_request (convert_endpoint from_currency to_currency amount)
        (net (convert_endpoint from_currency to_currency amount)) = .error e →
      (convert_currency jsonLoads net from_currency to_currency amount).prints =
        ["Request failed with error: " ++ e]) ∧
    (∀ e, make_get_request (latest_endpoint base symbols)
        (net (latest_endpoint base symbols)) = .error e →
      (get_exchange_rate jsonLoads net base symbols).prints =
        ["Request failed with error: " ++ e]) := by
  refine ⟨⟨?_, ?_, ?_⟩, ?_, ?_, ?_⟩
  · unfold get_currencies
    cases get_currencies_body jsonLoads net <;> rfl
  · unfold convert_currency
    cases convert_currency_body jsonLoads net from_currency to_currency amount <;> rfl
  · unfold get_exchange_rate
    cases get_exchange_rate_body jsonLoads net base symbols <;> rfl
  · intro e he
    simp [get_currencies, get_currencies_body, he, Bind.bind, Except.bind]
  · intro e he
    simp [convert_currency, convert_currency_body, he, Bind.bind, Except.bind]
  · intro e he
    simp [get_exchange_rate, get_exchange_rate_body, he, Bind.bind, Except.bind]

/-- Witness for C3 at a transport failure: the inner exception already reads
"Request failed with error: ..." and the handler prefixes it once more. -/
theorem C3_handlers_catch_get_errors_witness :
    (get_currencies (fun _ => .ok .null)
        (fun _ => .transportError "timed out")).prints =
      ["Request failed with error: " ++ "Request failed with error: timed out"] :=
  (C3_handlers_catch_get_errors (fun _ => .ok .null)
    (fun _ => .transportError "timed out") "a" "b" "1" "c" "d").2.1
    "Request failed with error: timed out" rfl

/-- C4: on a parsed conversion response with `success` equal to `false`,
`convert_currency` prints the server's `message` field verbatim (appended to
its fixed prefix) when present, and the generic fallback when absent. -/
theorem C4_convert_failure_message
    (jsonLoads : String → Except String JVal) (net : String → GetOutcome)
    (from_currency to_currency amount text : String)
    (fields : List (String × JVal))
    (hnet : make_get_request (convert_endpoint from_currency to_currency amount)
      (net (convert_endpoint from_currency to_currency amount)) = .ok text)
    (hparse : jsonLoads text = .ok (.obj fields))
    (hsuccess : fields.lookup "success" = some (.bool false)) :
    (∀ m, fields.lookup "message" = some (.str m) →
      (convert_currency jsonLoads net from_currency to_currency amount).prints =
        ["Error while accessing symbols: " ++ m]) ∧
    (fields.lookup "message" = none →
      (convert_currency jsonLoads net from_currency to_currency amount).prints =
        ["Error while accessing symbols: An unknown error occurred"]) := by
  constructor
  · intro m hm
    simp [convert_currency, convert_currency_body, hnet, hparse, hsuccess, hm,
      dictGet, pyTruthy, pyStr, Bind.bind, Except.bind, pure, Except.pure]
  · intro hm
    simp [convert_currency, convert_currency_body, hnet, hparse, hsuccess, hm,
      dictGet, pyTruthy, pyStr, Bind.bind, Except.bind, pure, Except.pure]

/-- Witness for C4: both the verbatim-message case and the fallback case at
concrete responses. -/
theorem C4_convert_failure_message_witness :
    (convert_currency
        (fun _ => .ok (.obj [("success", .bool false),
          ("message", .str "Invalid api key")]))
        (fun _ => .response 200 "OK" "body") "EUR" "USD" "10").prints =
      ["Error while accessing symbols: " ++ "Invalid api key"] :=
  (C4_convert_failure_message
    (fun _ => .ok (.obj [("success", .bool false),
      ("message", .str "Invalid api key")]))
    (fun _ => .response 200 "OK" "body") "EUR" "USD" "10" "body"
    [("success", .bool false), ("message", .str "Invalid api key")]
    rfl rfl rfl).1 "Invalid api key" rfl

/-- C5: on a parsed symbols response with `success` true and a `symbols`
dict, `get_currencies` prints exactly one line per entry, in dict order,
each as the currency code followed by ": " and the description — i.e. each
key/value pair is printed exactly once. -/
theorem C5_symbols_printed_once_each
    (jsonLoads : String → Except String JVal) (net : String → GetOutcome)
    (text : String) (fields syms : List (String × JVal))
    (hnet : make_get_request symbols_endpoint (net symbols_endpoint) = .ok text)
    (hparse : jsonLoads text = .ok (.obj fields))
    (hsuccess : fields.lookup "success" = some (.bool true))
    (hsymbols : fields.lookup "symbols" = some (.obj syms)) :
    (get_currencies jsonLoads net).prints =
      syms.map (fun kv => kv.1 ++ ": " ++ pyStr kv.2) := by
  simp [get_currencies, get_currencies_body, hnet, hparse, hsuccess, hsymbols,
    dictIndex, itemsOf, pyTruthy, Bind.bind, Except.bind, pure, Except.pure]

/-- Witness for C5 at a two-entry symbols dict. -/
theorem C5_symbols_printed_once_each_witness :
    (get_currencies
        (fun _ => .ok (.obj [("success", .bool true),
          ("symbols", .obj [("USD", .str "United States Dollar"),
            ("EUR", .str "Euro")])]))
        (fun _ => .response 200 "OK" "body")).prints =
      [("USD", JVal.str "United States Dollar"),
        ("EUR", JVal.str "Euro")].map (fun kv => kv.1 ++ ": " ++ pyStr kv.2) :=
  C5_symbols_printed_once_each
    (fun _ => .ok (.obj [("success", .bool true),
      ("symbols", .obj [("USD", .str "United States Dollar"),
        ("EUR", .str "Euro")])]))
    (fun _ => .response 200 "OK" "body") "body"
    [("success", .bool true),
      ("symbols", .obj [("USD", .str "United States Dollar"),
        ("EUR", .str "Euro")])]
    [("USD", .str "United States Dollar"), ("EUR", .str "Euro")]
    rfl rfl rfl rfl

/-- C7: the dispatcher maps an integer choice by direct lookup: choice 1
calls `get_currencies` bare, choice 2 prompts for from/to/amount and passes
them to `convert_currency`, choice 3 prompts for base/symbols and passes
them to `get_exchange_rate`, choice 4 calls `quit_program` bare, and any
other integer prints the invalid-choice message and calls no handler. -/
theorem C7_dispatch_shape (n : Int) (console : Nat → String) :
    handle_choices (.int n) console =
      if n = 1 then
        { prompts := [], prints := [], call := some Call.getCurrencies }
      else if n = 2 then
        { prompts := ["Enter the from currency: ", "Enter the to currency: ",
            "Enter the amount: "],
          prints := [],
          call := some (Call.convertCurrency (console 0) (console 1) (console 2)) }
      else if n = 3 then
        { prompts :=
            ["Enter the three-letter currency code of your preferred base currency: ",
             "Enter a list of comma-separated currency codes to limit output currencies: "],
          prints := [],
          call := some (Call.getExchangeRate (console 0) (console 1)) }
      else if n = 4 then
        { prompts := [], prints := [], call := some Call.quitProgram }
      else
        { prompts := [], prints := ["Invalid input. Please enter a valid choice."],
          call := none } := by
  by_cases h1 : n = 1
  · subst h1; rfl
  · by_cases h2 : n = 2
    · subst h2; rfl
    · by_cases h3 : n = 3
      · subst h3; rfl
      · by_cases h4 : n = 4
        · subst h4; rfl
        · simp [handle_choices, pyInt, handle_choices_else, choice_handlers,
            h1, h2, h3, h4]

/-- C8: on a parsed response object lacking a "success" key, the three
handlers disagree: `get_currencies` subscripts `parsed_data["success"]`, so
the `KeyError` escapes to its except clause and is printed as a request
failure, while `convert_currency` and `get_exchange_rate` use
`.get("success", False)` and print their API-failure branches instead. -/
theorem C8_missing_success_divergence
    (jsonLoads : String → Except String JVal) (net : String → GetOutcome)
    (from_currency to_currency amount base symbols : String)
    (t1 t2 t3 : String) (f1 f2 f3 : List (String × JVal))
    (h1net : make_get_request symbols_endpoint (net symbols_endpoint) = .ok t1)
    (h1parse : jsonLoads t1 = .ok (.obj f1))
    (h1succ : f1.lookup "success" = none)
    (h2net : make_get_request (convert_endpoint from_currency to_currency amount)
      (net (convert_endpoint from_currency to_currency amount)) = .ok t2)
    (h2parse : jsonLoads t2 = .ok (.obj f2))
    (h2succ : f2.lookup "success" = none)
    (h2msg : f2.lookup "message" = none)
    (h3net : make_get_request (latest_endpoint base symbols)
      (net (latest_endpoint base symbols)) = .ok t3)
    (h3parse : jsonLoads t3 = .ok (.obj f3))
    (h3succ : f3.lookup "success" = none) :
    (get_currencies jsonLoads net).prints =
      ["Request failed with error: \x27success\x27"] ∧
    (convert_currency jsonLoads net from_currency to_currency amount).prints =
      ["Error while accessing symbols: An unknown error occurred"] ∧
    (get_exchange_rate jsonLoads net base symbols).prints =
      ["Error while accessing data"] := by
  refine ⟨?_, ?_, ?_⟩
  · simp [get_currencies, get_currencies_body, h1net, h1parse, h1succ,
      dictIndex, Bind.bind, Except.bind, pure, Except.pure]
  · simp [convert_currency, convert_currency_body, h2net, h2parse, h2succ,
      h2msg, dictGet, pyTruthy, pyStr, Bind.bind, Except.bind, pure, Except.pure]
  · simp [get_exchange_rate, get_exchange_rate_body, h3net, h3parse, h3succ,
      dictGet, pyTruthy, Bind.bind, Except.bind, pure, Except.pure]

/-- Witness for C8 at the empty JSON object response for all three
handlers. -/
theorem C8_missing_success_divergence_witness :
    (get_currencies (fun _ => .ok (.obj []))
        (fun _ => .response 200 "OK" "\x7b\x7d")).prints =
      ["Request failed with error: \x27success\x27"] ∧
    (convert_currency (fun _ => .ok (.obj []))
        (fun _ => .response 200 "OK" "\x7b\x7d") "EUR" "USD" "10").prints =
      ["Error while accessing symbols: An unknown error occurred"] ∧
    (get_exchange_rate (fun _ => .ok (.obj []))
        (fun _ => .response 200 "OK" "\x7b\x7d") "EUR" "USD").prints =
      ["Error while accessing data"] :=
  C8_missing_success_divergence (fun _ => .ok (.obj []))
    (fun _ => .response 200 "OK" "\x7b\x7d") "EUR" "USD" "10" "EUR" "USD"
    "\x7b\x7d" "\x7b\x7d" "\x7b\x7d" [] [] []
    rfl rfl rfl rfl rfl rfl rfl rfl rfl rfl

/-- C6: selecting choice 4 dispatches to `quit_program` with no prompts and
no prints of its own, and the combined run performs no network request,
prints the farewell, and exits with status code 0. -/
theorem C6_quit_exits_without_network
    (jsonLoads : String → Except String JVal) (net : String → GetOutcome)
    (console : Nat → String) :
    handle_choices (.int 4) console =
      { prompts := [], prints := [], call := some .quitProgram } ∧
    handle_choices_run jsonLoads net console (.int 4) =
      { requests := [], prints := ["See ya!!"], exitCode := some 0 } := by
  constructor <;> rfl

/-- C9: the latest-rates endpoint is the base URL, then the always-present
"?", then "&symbols=..." when symbols is non-empty, then "&base=..." when
base is non-empty — symbols always before base. -/
theorem C9_latest_endpoint_shape (base symbols : String) :
    latest_endpoint base symbols =
      "https://api.apilayer.com/fixer/latest" ++ "?" ++
        (if symbols ≠ "" then "&symbols=" ++ symbols else "") ++
        (if base ≠ "" then "&base=" ++ base else "") := by
  have h1 : ∀ a : String, String.intercalate "&" [a] = a := fun a => rfl
  have h2 : ∀ a b : String, String.intercalate "&" [a, b] = a ++ "&" ++ b :=
    fun a b => rfl
  have h3 : ∀ a b c : String,
      String.intercalate "&" [a, b, c] = a ++ "&" ++ b ++ "&" ++ c :=
    fun a b c => rfl
  unfold latest_endpoint
  by_cases hs : symbols = "" <;> by_cases hb : base = "" <;>
    simp [hs, hb, h1, h2, h3, String.append_assoc] <;> rfl

/-- C10: when `handle_choices` receives a value that is already an `int` (as
`main` always passes), the `int()` conversion cannot raise, so the
`ValueError` branch is unreachable and the `else` block always runs. -/
theorem C10_valueerror_branch_unreachable (n : Int) (console : Nat → String) :
    pyInt (.int n) = .ok n ∧
    handle_choices (.int n) console = handle_choices_else n console :=
  ⟨rfl, rfl⟩

end App
